import Mathlib

/-!
Verification of the VTOM → Jira Service Management integration
(`Jira_CreateTicket.py`): a shallow embedding of the runtime alarm path
(`main`) and of the `JiraIntegration` methods it calls, together with
theorems about the dedup/link decision procedure, the precondition
lookups, the attachment phase and the custom-field payload.

Remote behaviour (HTTP responses, file-system existence) is modelled by an
explicit environment record `Env`; each fallible remote read is an
`Except Unit` value (`.error ()` = transport failure caught by the
corresponding `except requests.exceptions.RequestException` handler).
The externally visible write calls (issue creation POST, issue-link POST,
attachment POST, comment POST) are recorded in an action trace.
-/

/-- A named remote entity with an id (issue type or priority),
as returned by the project / issuetype / priority endpoints. -/
structure NamedId where
  name : String
  id : String
deriving DecidableEq, Repr

/-- A ticket as returned by the search endpoint: its key, the status name
(`issue['fields'].get('status', \x7b\x7d).get('name', '')`), and the custom
fields (`issue['fields']`), each field either a string or JSON null. -/
structure Issue where
  key : String
  statusName : String
  fields : List (String × Option String)
deriving DecidableEq, Repr

/-- A custom-field value: a string or a list of ids
(as in `jsm_default_values`, e.g. `affected_services: []`). -/
inductive FieldVal where
  | str : String → FieldVal
  | ids : List String → FieldVal
deriving DecidableEq, Repr

/-- Python truthiness of a custom-field value. -/
def FieldVal.truthy : FieldVal → Bool
  | .str s => !(s = "")
  | .ids xs => !xs.isEmpty

/-- Association-list lookup, modelling Python `dict.get` / `in`. -/
def alookup {β : Type} : List (String × β) → String → Option β
  | [], _ => none
  | p :: rest, k => if p.1 = k then some p.2 else alookup rest k

/-- Python `dict` assignment `d[k] = v`: overwrite if the key is present,
append otherwise. -/
def dictInsert {β : Type} (d : List (String × β)) (k : String) (v : β) :
    List (String × β) :=
  if d.any (fun p => p.1 = k) then
    d.map (fun p => if p.1 = k then (k, v) else p)
  else d ++ [(k, v)]

/-- The static configuration read from `config.py`. -/
structure Config where
  custom_field_mappings : List (String × String)
  jsm_default_values : List (String × FieldVal)
  priority_mapping : List (String × String)
  issue_type_mapping : List (String × String)
deriving Repr

/-- Parsed command-line arguments of the runtime path (`argparse`),
with `issueType` and `priority` already holding their defaults. -/
structure Args where
  projectKey : String
  summary : String
  description : String
  objectName : String
  issueType : String
  priority : String
  assignee : Option String
  outAttachmentName : Option String
  outAttachmentFile : Option String
  errorAttachmentName : Option String
  errorAttachmentFile : Option String
  severity : Option String
  alarmType : Option String
deriving Repr

/-- The remote/filesystem environment of one invocation: the responses the
remote service would give to each read call, the outcome of the creation
POST (`some key` on success), filesystem paths that exist, and the
outcomes of the best-effort POSTs. -/
structure Env where
  projectTypes : Except Unit (List NamedId)
  allTypes : Except Unit (List NamedId)
  priorities : Except Unit (List NamedId)
  searchResult : Except Unit (List Issue)
  createResult : Option String
  existingPaths : List String
  attachOk : Bool
  commentOk : Bool
deriving Repr

/-- The JSON payload of an issue-creation POST (`issue_data['fields']`). -/
structure IssueData where
  projectKey : String
  issueTypeId : String
  summary : String
  description : String
  priorityId : String
  assignee : Option String
  customFields : List (String × FieldVal)
deriving DecidableEq, Repr

/-- An externally visible HTTP write call made by the runtime path. -/
inductive Act where
  | createPost : IssueData → Act
  | linkPost : (inward : String) → (outward : String) → Act
  | attachPost : (issueKey : String) → (filePath : String) → (filename : String) → Act
  | commentPost : (issueKey : String) → Act
deriving DecidableEq, Repr

/-- Python `str.lower()` (ASCII case folding), written over the
character list so it evaluates. -/
def strLower (s : String) : String := String.mk (s.data.map Char.toLower)

/-- The case-insensitive first-match name scan shared by
`get_issue_type_id` and `get_priority_id`
(`if entry['name'].lower() == name.lower(): return entry['id']`). -/
def findIdByName (name : String) : List NamedId → Option String
  | [] => none
  | t :: rest =>
      if strLower t.name = strLower name then some t.id else findIdByName name rest

/-- `JiraIntegration.get_issue_type_id`: scan the project's issue types,
then (only when the project call succeeded and found no match) the global
issue-type list; any transport failure yields `None`. -/
def get_issue_type_id (env : Env) (_project_key issue_type_name : String) :
    Option String :=
  match env.projectTypes with
  | .error _ => none
  | .ok pts =>
      match findIdByName issue_type_name pts with
      | some tid => some tid
      | none =>
          match env.allTypes with
          | .error _ => none
          | .ok ats => findIdByName issue_type_name ats

/-- `JiraIntegration.get_priority_id`: scan the priority list;
transport failure yields `None`. -/
def get_priority_id (env : Env) (priority_name : String) : Option String :=
  match env.priorities with
  | .error _ => none
  | .ok ps => findIdByName priority_name ps

/-- `status.lower() in ['done', 'closed', 'resolved']`. -/
def isClosedStatus (status : String) : Bool :=
  ["done", "closed", "resolved"].contains (strLower status)

/-- `issue['fields'].get(vtom_field_id)`: missing key and JSON null both
give `none`. -/
def getField (i : Issue) (fid : String) : Option String :=
  match alookup i.fields fid with
  | some v => v
  | none => none

/-- The in-memory filter loop of `search_existing_issue` (lines 130-144):
skip closed statuses, return the first issue whose object-name field is
truthy and equal to the alarm's object name. -/
def filterIssues (fid object_name : String) : List Issue → Option Issue
  | [] => none
  | i :: rest =>
      if isClosedStatus i.statusName then filterIssues fid object_name rest
      else
        match getField i fid with
        | some v =>
            if v ≠ "" ∧ v = object_name then some i
            else filterIssues fid object_name rest
        | none => filterIssues fid object_name rest

/-- The filter predicate a surviving candidate satisfies: open status, and
a truthy object-name field equal to the alarm's object name. -/
def keepIssue (fid object_name : String) (i : Issue) : Bool :=
  !isClosedStatus i.statusName &&
    match getField i fid with
    | some v => decide (v ≠ "" ∧ v = object_name)
    | none => false

/-- `JiraIntegration.search_existing_issue`: skip entirely when the
`vtom_object_name` mapping is absent or falsy; return `None` on a
transport failure of the search POST; otherwise run the in-memory filter
over the returned page (newest first, as ordered by the JQL). -/
def search_existing_issue (cfg : Config) (env : Env)
    (object_name _project_key : String) : Option Issue :=
  match alookup cfg.custom_field_mappings "vtom_object_name" with
  | none => none
  | some fid =>
      if fid = "" then none
      else
        match env.searchResult with
        | .error _ => none
        | .ok data => filterIssues fid object_name data

/-- `JiraIntegration.create_issue`: resolve the issue-type id, then the
priority id; `if not issue_type_id:` / `if not priority_id:` abort on a
falsy id (`None` or the empty string) without issuing the creation POST.
Otherwise issue the POST (recorded in the trace) whose outcome is
`env.createResult`. -/
def create_issue (env : Env) (project_key issue_type summary description
    priority : String) (assignee : Option String)
    (custom_fields : List (String × FieldVal)) :
    List Act × Option String :=
  match get_issue_type_id env project_key issue_type with
  | none => ([], none)
  | some tid =>
    if tid = "" then ([], none)
    else
      match get_priority_id env priority with
      | none => ([], none)
      | some pid =>
        if pid = "" then ([], none)
        else
          let payload : IssueData :=
            { projectKey := project_key
              issueTypeId := tid
              summary := summary
              description := description
              priorityId := pid
              assignee :=
                match assignee with
                | some a => if a = "" then none else some a
                | none => none
              customFields := custom_fields }
          ([Act.createPost payload], env.createResult)

/-- `JiraIntegration.add_attachment`: when the path does not exist, warn
and return `False` without any HTTP call; otherwise issue the multipart
POST, whose outcome is `env.attachOk`. -/
def add_attachment (env : Env) (issue_key file_path filename : String) :
    List Act × Bool :=
  if file_path ∈ env.existingPaths then
    ([Act.attachPost issue_key file_path filename], env.attachOk)
  else ([], false)

/-- Python truthiness of an optional string argument. -/
def optTruthy : Option String → Bool
  | some s => !(s = "")
  | none => false

/-- `main` lines 426-430: map the priority through `priority_mapping`
when a truthy severity is given and its lowercase form is in the table. -/
def resolvePriority (cfg : Config) (args : Args) : String :=
  match args.severity with
  | some s =>
      if s ≠ "" then
        match alookup cfg.priority_mapping (strLower s) with
        | some p => p
        | none => args.priority
      else args.priority
  | none => args.priority

/-- `main` lines 431-433: map the issue type through `issue_type_mapping`
when a truthy alarm type is given and its lowercase form is in the table. -/
def resolveIssueType (cfg : Config) (args : Args) : String :=
  match args.alarmType with
  | some s =>
      if s ≠ "" then
        match alookup cfg.issue_type_mapping (strLower s) with
        | some t => t
        | none => args.issueType
      else args.issueType
  | none => args.issueType

/-- `main` lines 436-454: build the `custom_fields` dict — the
`vtom_object_name` field holding the object name, then JSM defaults for
every mapped field name with a truthy default value, then the
`vtom_job_name` field holding the object name. -/
def buildCustomFields (cfg : Config) (objectName : String) :
    List (String × FieldVal) :=
  if cfg.custom_field_mappings.isEmpty then []
  else
    let cf1 : List (String × FieldVal) :=
      match alookup cfg.custom_field_mappings "vtom_object_name" with
      | some fid =>
          if fid = "" then [] else dictInsert [] fid (FieldVal.str objectName)
      | none => []
    let cf2 : List (String × FieldVal) :=
      if cfg.jsm_default_values.isEmpty then cf1
      else
        cfg.custom_field_mappings.foldl
          (fun acc p =>
            match alookup cfg.jsm_default_values p.1 with
            | some dv => if dv.truthy then dictInsert acc p.2 dv else acc
            | none => acc)
          cf1
    cfg.custom_field_mappings.foldl
      (fun acc p =>
        if p.1 = "vtom_job_name" then
          dictInsert acc p.2 (FieldVal.str objectName)
        else acc)
      cf2

/-- `main` lines 518-531: the best-effort post-processing after a
successful creation — the two conditional attachment attempts and the
audit comment. -/
def attachmentPhase (env : Env) (args : Args) (issue_key : String) :
    List Act :=
  let t1 :=
    if optTruthy args.outAttachmentFile && optTruthy args.outAttachmentName then
      (add_attachment env issue_key (args.outAttachmentFile.getD "")
        (args.outAttachmentName.getD "")).1
    else []
  let t2 :=
    if optTruthy args.errorAttachmentFile && optTruthy args.errorAttachmentName then
      (add_attachment env issue_key (args.errorAttachmentFile.getD "")
        (args.errorAttachmentName.getD "")).1
    else []
  t1 ++ t2 ++ [Act.commentPost issue_key]

/-- `main` (non-debug path), lines 426-531: resolve priority and issue
type, build the custom fields, run the dedup search, then either create a
linked issue (annotated summary/description, then the issue-link POST)
or a fresh one; a failed creation exits with code 1, otherwise the
attachment phase runs and the process exits 0. -/
def runMain (cfg : Config) (env : Env) (args : Args) : List Act × Nat :=
  let priority := resolvePriority cfg args
  let issue_type := resolveIssueType cfg args
  let custom_fields := buildCustomFields cfg args.objectName
  match search_existing_issue cfg env args.objectName args.projectKey with
  | some existing =>
      let linked_summary := args.summary ++ " (Related to " ++ existing.key ++ ")"
      let linked_description :=
        "This issue is related to existing issue " ++ existing.key ++
          "\n\nVTOM Object: " ++ args.objectName ++ "\n\n" ++ args.description
      match create_issue env args.projectKey issue_type linked_summary
          linked_description priority args.assignee custom_fields with
      | (ctrace, some issue_key) =>
          (ctrace ++ [Act.linkPost issue_key existing.key] ++
            attachmentPhase env args issue_key, 0)
      | (ctrace, none) => (ctrace, 1)
  | none =>
      match create_issue env args.projectKey issue_type args.summary
          args.description priority args.assignee custom_fields with
      | (ctrace, some issue_key) =>
          (ctrace ++ attachmentPhase env args issue_key, 0)
      | (ctrace, none) => (ctrace, 1)

/-- The issue-creation payloads of a trace, in order. -/
def createsOf : List Act → List IssueData
  | [] => []
  | Act.createPost d :: rest => d :: createsOf rest
  | _ :: rest => createsOf rest

/-- The (inward, outward) issue-link calls of a trace, in order. -/
def linksOf : List Act → List (String × String)
  | [] => []
  | Act.linkPost a b :: rest => (a, b) :: linksOf rest
  | _ :: rest => linksOf rest


/-! ## Concrete fixtures for witnesses and counterexamples -/

/-- A configuration shaped like `config.template.py`. -/
def cfgT : Config where
  custom_field_mappings :=
    [("vtom_object_name", "customfield_10055"), ("request_type", "customfield_10010")]
  jsm_default_values := [("request_type", FieldVal.str "14")]
  priority_mapping := [("critical", "Highest")]
  issue_type_mapping := [("job_failure", "Incident")]

/-- A configuration with an empty custom-field mapping table. -/
def cfg0 : Config where
  custom_field_mappings := []
  jsm_default_values := []
  priority_mapping := []
  issue_type_mapping := []

def issueDone : Issue where
  key := "PROJ-40"
  statusName := "Done"
  fields := [("customfield_10055", some "ETL_NIGHTLY")]

def issueNewest : Issue where
  key := "PROJ-42"
  statusName := "Open"
  fields := [("customfield_10055", some "ETL_NIGHTLY")]

def issueOlder : Issue where
  key := "PROJ-33"
  statusName := "In Progress"
  fields := [("customfield_10055", some "ETL_NIGHTLY")]

def issueNullField : Issue where
  key := "PROJ-50"
  statusName := "Open"
  fields := [("customfield_10055", none)]

def issueJobA : Issue where
  key := "PROJ-51"
  statusName := "Open"
  fields := [("customfield_10055", some "Job_A")]

def envT : Env where
  projectTypes := .ok [{ name := "Incident", id := "10001" }]
  allTypes := .ok []
  priorities := .ok [{ name := "High", id := "2" }]
  searchResult := .ok [issueDone, issueNewest, issueOlder]
  createResult := some "PROJ-77"
  existingPaths := ["/tmp/out.log"]
  attachOk := true
  commentOk := true

def envEmptySearch : Env := { envT with searchResult := .ok [] }

def envErrSearch : Env := { envT with searchResult := .error () }

def envNoPriority : Env := { envT with priorities := .ok [] }

def argsT : Args where
  projectKey := "PROJ"
  summary := "Job failed"
  description := "Job X failed"
  objectName := "ETL_NIGHTLY"
  issueType := "Incident"
  priority := "High"
  assignee := none
  outAttachmentName := none
  outAttachmentFile := none
  errorAttachmentName := none
  errorAttachmentFile := none
  severity := none
  alarmType := none

def argsAttach : Args := { argsT with
  outAttachmentName := some "out.log"
  outAttachmentFile := some "/tmp/out.log"
  errorAttachmentName := some "err.log"
  errorAttachmentFile := some "/tmp/err.log" }

/-- The creation payload of the fresh-ticket run of `cfgT`, `envEmptySearch`,
`argsT`, written out explicitly. -/
def payloadFresh : IssueData where
  projectKey := "PROJ"
  issueTypeId := "10001"
  summary := "Job failed"
  description := "Job X failed"
  priorityId := "2"
  assignee := none
  customFields :=
    [("customfield_10055", FieldVal.str "ETL_NIGHTLY"),
     ("customfield_10010", FieldVal.str "14")]

/-! ## Helper lemmas -/

theorem keepIssue_closed {fid obj : String} {i : Issue}
    (h : isClosedStatus i.statusName = true) : keepIssue fid obj i = false := by
  simp [keepIssue, h]

theorem filterIssues_eq_head_filter (fid obj : String) (issues : List Issue) :
    filterIssues fid obj issues = (issues.filter (keepIssue fid obj)).head? := by
  induction issues with
  | nil => rfl
  | cons i rest ih =>
      by_cases hc : isClosedStatus i.statusName
      · rw [List.filter_cons, keepIssue_closed hc]
        simp only [filterIssues, if_pos hc, Bool.false_eq_true, if_false]
        exact ih
      · cases hg : getField i fid with
        | none =>
            have hk : keepIssue fid obj i = false := by simp [keepIssue, hc, hg]
            rw [List.filter_cons, hk]
            simp only [filterIssues, if_neg hc, hg, Bool.false_eq_true, if_false]
            exact ih
        | some v =>
            by_cases hv : v ≠ "" ∧ v = obj
            · have hc' : isClosedStatus i.statusName = false := by simpa using hc
              have hk : keepIssue fid obj i = true := by
                simp only [keepIssue, hc', hg, Bool.not_false, Bool.true_and,
                  decide_eq_true_eq]
                exact hv
              rw [List.filter_cons, hk]
              simp only [filterIssues, if_neg hc, hg, if_pos hv, if_true, List.head?_cons]
            · have hk : keepIssue fid obj i = false := by
                simp only [keepIssue, hg, Bool.and_eq_false_iff]
                right
                simpa using hv
              rw [List.filter_cons, hk]
              simp only [filterIssues, if_neg hc, hg, if_neg hv, Bool.false_eq_true, if_false]
              exact ih

theorem filterIssues_some_keep {fid obj : String} {issues : List Issue} {i : Issue}
    (h : filterIssues fid obj issues = some i) : keepIssue fid obj i = true := by
  rw [filterIssues_eq_head_filter] at h
  have hm : i ∈ issues.filter (keepIssue fid obj) := List.mem_of_mem_head? (by simp [h])
  exact (List.mem_filter.mp hm).2

theorem createsOf_append (a b : List Act) :
    createsOf (a ++ b) = createsOf a ++ createsOf b := by
  induction a with
  | nil => rfl
  | cons x rest ih => cases x <;> simp [createsOf, ih]

theorem linksOf_append (a b : List Act) :
    linksOf (a ++ b) = linksOf a ++ linksOf b := by
  induction a with
  | nil => rfl
  | cons x rest ih => cases x <;> simp [linksOf, ih]

theorem createsOf_add_attachment (env : Env) (k f n : String) :
    createsOf (add_attachment env k f n).1 = [] := by
  unfold add_attachment
  split <;> simp [createsOf]

theorem linksOf_add_attachment (env : Env) (k f n : String) :
    linksOf (add_attachment env k f n).1 = [] := by
  unfold add_attachment
  split <;> simp [linksOf]

theorem createsOf_attachmentPhase (env : Env) (args : Args) (k : String) :
    createsOf (attachmentPhase env args k) = [] := by
  simp only [attachmentPhase]
  simp only [createsOf_append]
  split <;> split <;>
    simp [createsOf_add_attachment, createsOf]

theorem linksOf_attachmentPhase (env : Env) (args : Args) (k : String) :
    linksOf (attachmentPhase env args k) = [] := by
  simp only [attachmentPhase]
  simp only [linksOf_append]
  split <;> split <;>
    simp [linksOf_add_attachment, linksOf]

theorem alookup_eq_none_of_not_any {β : Type} (d : List (String × β)) (k : String)
    (h : d.any (fun p => p.1 = k) = false) : alookup d k = none := by
  induction d with
  | nil => rfl
  | cons p rest ih =>
      simp only [List.any_cons, Bool.or_eq_false_iff, decide_eq_false_iff_not] at h
      simp [alookup, h.1, ih h.2]

theorem alookup_map_replace_other {β : Type} (d : List (String × β)) (k : String)
    (v : β) (k' : String) (h : k ≠ k') :
    alookup (d.map (fun p => if p.1 = k then (k, v) else p)) k' = alookup d k' := by
  induction d with
  | nil => rfl
  | cons p rest ih =>
      by_cases hp : p.1 = k
      · simp only [List.map_cons, if_pos hp, alookup, if_neg h, if_neg (hp ▸ h), ih]
      · simp only [List.map_cons, if_neg hp, alookup, ih]

theorem alookup_map_replace_same {β : Type} (d : List (String × β)) (k : String)
    (v : β) (h : d.any (fun p => p.1 = k) = true) :
    alookup (d.map (fun p => if p.1 = k then (k, v) else p)) k = some v := by
  induction d with
  | nil => simp at h
  | cons p rest ih =>
      by_cases hp : p.1 = k
      · simp [alookup, if_pos hp]
      · simp only [List.any_cons, Bool.or_eq_true, decide_eq_true_eq] at h
        rcases h with h | h
        · exact absurd h hp
        · simp only [List.map_cons, if_neg hp, alookup, if_neg hp, ih h]

theorem alookup_append_single {β : Type} (d : List (String × β)) (k : String)
    (v : β) (k' : String) :
    alookup (d ++ [(k, v)]) k' =
      match alookup d k' with
      | some w => some w
      | none => if k = k' then some v else none := by
  induction d with
  | nil => simp [alookup]
  | cons p rest ih =>
      by_cases hp : p.1 = k' <;> simp [alookup, hp, ih]

theorem alookup_dictInsert_same {β : Type} (d : List (String × β)) (k : String)
    (v : β) : alookup (dictInsert d k v) k = some v := by
  unfold dictInsert
  by_cases hany : d.any (fun p => p.1 = k) = true
  · rw [if_pos hany]
    exact alookup_map_replace_same d k v hany
  · rw [if_neg hany]
    rw [alookup_append_single,
      alookup_eq_none_of_not_any d k (Bool.eq_false_iff.mpr hany)]
    simp

theorem alookup_dictInsert_other {β : Type} (d : List (String × β)) (k : String)
    (v : β) (k' : String) (h : k ≠ k') :
    alookup (dictInsert d k v) k' = alookup d k' := by
  unfold dictInsert
  by_cases hany : d.any (fun p => p.1 = k) = true
  · rw [if_pos hany]
    exact alookup_map_replace_other d k v k' h
  · rw [if_neg hany, alookup_append_single]
    cases hd : alookup d k' with
    | some w => simp
    | none => simp [if_neg h]

theorem search_existing_issue_eq {cfg : Config} {env : Env} {fid : String}
    (obj pk : String)
    (hm : alookup cfg.custom_field_mappings "vtom_object_name" = some fid)
    (hfid : fid ≠ "") {issues : List Issue} (he : env.searchResult = .ok issues) :
    search_existing_issue cfg env obj pk =
      (issues.filter (keepIssue fid obj)).head? := by
  simp [search_existing_issue, hm, hfid, he, filterIssues_eq_head_filter]

/-! ## Claim theorems -/

/-- C2: For every alarm invocation in which the dedup search yields no
surviving candidate, the procedure creates exactly one fresh ticket using
the alarm's own (unannotated) summary and description, and issues no link
call. -/
theorem C2_fresh_ticket_no_link (cfg : Config) (env : Env) (args : Args)
    (tid pid k : String)
    (hs : search_existing_issue cfg env args.objectName args.projectKey = none)
    (hT : get_issue_type_id env args.projectKey (resolveIssueType cfg args) = some tid)
    (hTid : tid ≠ "")
    (hP : get_priority_id env (resolvePriority cfg args) = some pid)
    (hPid : pid ≠ "")
    (hC : env.createResult = some k) :
    (createsOf (runMain cfg env args).1).map IssueData.summary = [args.summary] ∧
    (createsOf (runMain cfg env args).1).map IssueData.description = [args.description] ∧
    linksOf (runMain cfg env args).1 = [] := by
  simp only [runMain, hs]
  simp only [create_issue, hT, hP, hC, if_neg hTid, if_neg hPid]
  simp [createsOf_append, linksOf_append, createsOf_attachmentPhase,
    linksOf_attachmentPhase, createsOf, linksOf]

theorem linksOf_create_issue (env : Env) (pk it s d p : String)
    (a : Option String) (cf : List (String × FieldVal)) :
    linksOf (create_issue env pk it s d p a cf).1 = [] := by
  unfold create_issue
  repeat' split
  all_goals rfl

theorem createsOf_create_issue (env : Env) (pk it s d p : String)
    (a : Option String) (cf : List (String × FieldVal)) :
    ∀ x ∈ createsOf (create_issue env pk it s d p a cf).1,
      x.projectKey = pk ∧ x.summary = s ∧ x.description = d ∧
        x.customFields = cf := by
  unfold create_issue
  repeat' split
  all_goals intro x hx
  all_goals
    first
      | (simp only [createsOf, List.mem_singleton] at hx
         subst hx
         exact ⟨rfl, rfl, rfl, rfl⟩)
      | simp [createsOf] at hx

theorem create_issue_fail (env : Env) (pk it p : String) (a : Option String)
    (cf : List (String × FieldVal))
    (h : get_issue_type_id env pk it = none ∨ get_priority_id env p = none) :
    ∀ s d, create_issue env pk it s d p a cf = ([], none) := by
  intro s d
  rcases h with h | h
  · simp [create_issue, h]
  · cases ht : get_issue_type_id env pk it with
    | none => simp [create_issue, ht]
    | some tid =>
        by_cases htid : tid = "" <;> simp [create_issue, ht, htid, h]

/-- C1: when the dedup search yields at least one surviving candidate
(open status, exact object-name match), the procedure creates exactly one
new ticket whose summary is the alarm summary annotated with the newest
surviving candidate's key and whose description carries that key as a
cross-reference prefix, and attempts exactly one issue-link call whose
outward issue is that candidate's key; only the first candidate in the
newest-first page order is used, older matches are ignored. -/
theorem C1_dedup_links_newest_candidate (cfg : Config) (env : Env) (args : Args)
    (fid : String) (issues rest : List Issue) (c : Issue) (tid pid k : String)
    (hm : alookup cfg.custom_field_mappings "vtom_object_name" = some fid)
    (hfid : fid ≠ "")
    (he : env.searchResult = .ok issues)
    (hsurv : issues.filter (keepIssue fid args.objectName) = c :: rest)
    (hT : get_issue_type_id env args.projectKey (resolveIssueType cfg args) = some tid)
    (hTid : tid ≠ "")
    (hP : get_priority_id env (resolvePriority cfg args) = some pid)
    (hPid : pid ≠ "")
    (hC : env.createResult = some k) :
    (createsOf (runMain cfg env args).1).map IssueData.summary =
      [args.summary ++ " (Related to " ++ c.key ++ ")"] ∧
    (createsOf (runMain cfg env args).1).map IssueData.description =
      ["This issue is related to existing issue " ++ c.key ++
        "\n\nVTOM Object: " ++ args.objectName ++ "\n\n" ++ args.description] ∧
    linksOf (runMain cfg env args).1 = [(k, c.key)] := by
  have hs : search_existing_issue cfg env args.objectName args.projectKey = some c := by
    rw [search_existing_issue_eq args.objectName args.projectKey hm hfid he, hsurv]
    rfl
  simp only [runMain, hs]
  simp only [create_issue, hT, hP, hC, if_neg hTid, if_neg hPid]
  simp [createsOf_append, linksOf_append, createsOf_attachmentPhase,
    linksOf_attachmentPhase, createsOf, linksOf]

/-- C5: for every invocation whose (mapped) priority name resolves to no
known priority — and likewise for an unresolvable issue-type name — the
run aborts with exit code 1 and the issue-creation HTTP call is never
issued (the whole write trace is empty). -/
theorem C5_unresolvable_precondition_aborts (cfg : Config) (env : Env) (args : Args)
    (h : get_priority_id env (resolvePriority cfg args) = none ∨
         get_issue_type_id env args.projectKey (resolveIssueType cfg args) = none) :
    runMain cfg env args = ([], 1) := by
  have hfail := create_issue_fail env args.projectKey (resolveIssueType cfg args)
    (resolvePriority cfg args) args.assignee (buildCustomFields cfg args.objectName)
    h.symm
  cases hs : search_existing_issue cfg env args.objectName args.projectKey with
  | some c => simp only [runMain, hs, hfail]
  | none => simp only [runMain, hs, hfail]

theorem search_existing_issue_some_elim {cfg : Config} {env : Env}
    {obj pk : String} {i : Issue}
    (hc : search_existing_issue cfg env obj pk = some i) :
    ∃ fid issues,
      alookup cfg.custom_field_mappings "vtom_object_name" = some fid ∧
      fid ≠ "" ∧ env.searchResult = .ok issues ∧
      filterIssues fid obj issues = some i := by
  unfold search_existing_issue at hc
  rcases halo : alookup cfg.custom_field_mappings "vtom_object_name" with - | fid
  · simp [halo] at hc
  · simp only [halo] at hc
    by_cases hf : fid = ""
    · simp [if_pos hf] at hc
    · simp only [if_neg hf] at hc
      rcases he : env.searchResult with e | issues
      · simp [he] at hc
      · simp only [he] at hc
        exact ⟨fid, issues, rfl, hf, rfl, hc⟩

/-- C3: during the dedup filter, every candidate ticket whose status name
case-insensitively equals "done", "closed" or "resolved" is skipped: it is
never returned by the filter loop nor by `search_existing_issue`, for any
alarm. -/
theorem C3_closed_never_selected (i : Issue)
    (h : isClosedStatus i.statusName = true) :
    (∀ fid obj issues, filterIssues fid obj issues ≠ some i) ∧
    (∀ cfg env obj pk, search_existing_issue cfg env obj pk ≠ some i) := by
  have hfilter : ∀ fid obj issues, filterIssues fid obj issues ≠ some i := by
    intro fid obj issues hc
    have hk := filterIssues_some_keep hc
    rw [keepIssue_closed h] at hk
    exact Bool.false_ne_true hk
  refine ⟨hfilter, ?_⟩
  intro cfg env obj pk hc
  obtain ⟨fid, issues, -, -, -, hfi⟩ := search_existing_issue_some_elim hc
  exact hfilter fid obj issues hfi

/-- C4: object-name matching in the dedup filter is exact and
case-sensitive: a selected candidate's object-name field value is
string-equal to the alarm's object name; in particular a candidate
holding "Job_A" is never selected for an alarm for "job_a". -/
theorem C4_object_name_match_exact :
    (∀ fid obj issues i, filterIssues fid obj issues = some i →
      getField i fid = some obj) ∧
    (∀ cfg env obj pk i,
      search_existing_issue cfg env obj pk = some i →
      ∃ fid, alookup cfg.custom_field_mappings "vtom_object_name" = some fid ∧
        getField i fid = some obj) ∧
    (∀ fid issues i, getField i fid = some "Job_A" →
      filterIssues fid "job_a" issues ≠ some i) := by
  have hfilter : ∀ fid obj issues i, filterIssues fid obj issues = some i →
      getField i fid = some obj := by
    intro fid obj issues i hc
    have hk := filterIssues_some_keep hc
    simp only [keepIssue, Bool.and_eq_true] at hk
    rcases hk with ⟨-, hk⟩
    cases hg : getField i fid with
    | none => rw [hg] at hk; exact absurd hk (by simp)
    | some v =>
        rw [hg] at hk
        simp only [decide_eq_true_eq] at hk
        rw [hk.2]
  refine ⟨hfilter, ?_, ?_⟩
  · intro cfg env obj pk i hc
    obtain ⟨fid, issues, hm, -, -, hfi⟩ := search_existing_issue_some_elim hc
    exact ⟨fid, hm, hfilter fid obj issues i hfi⟩
  · intro fid issues i hg hc
    have hv := hfilter fid "job_a" issues i hc
    rw [hg] at hv
    have hJ : ("Job_A" : String) = "job_a" := by injection hv
    exact absurd hJ (by decide)

/-- C10: a candidate whose object-name field value is absent, null or the
empty string is never selected by the dedup filter, even when the alarm's
object name is itself the empty string (the equality test is guarded by
truthiness of the field value). -/
theorem C10_falsy_field_never_selected (i : Issue) (fid : String)
    (h : getField i fid = none ∨ getField i fid = some "") :
    ∀ obj issues, filterIssues fid obj issues ≠ some i := by
  intro obj issues hc
  have hk := filterIssues_some_keep hc
  simp only [keepIssue, Bool.and_eq_true] at hk
  rcases hk with ⟨-, hk⟩
  rcases h with h | h <;> rw [h] at hk
  · exact absurd hk (by simp)
  · simp at hk

/-- C6: the issue-type and priority lookups are case-insensitive
exact-name matches over the remote lists (first matching entry's id wins;
for issue types the project list is consulted first, then the global
list), no match reports not-found, and the create path treats not-found
as a hard precondition failure (no creation POST). -/
theorem C6_lookup_semantics :
    (∀ (name : String) (ts : List NamedId),
      findIdByName name ts =
        (ts.find? (fun t => strLower t.name = strLower name)).map NamedId.id) ∧
    (∀ (env : Env) (name : String) (ps : List NamedId),
      env.priorities = .ok ps → get_priority_id env name = findIdByName name ps) ∧
    (∀ (env : Env) (pk name : String) (pts ats : List NamedId),
      env.projectTypes = .ok pts → env.allTypes = .ok ats →
      get_issue_type_id env pk name =
        (match findIdByName name pts with
         | some tid => some tid
         | none => findIdByName name ats)) ∧
    (∀ (env : Env) (pk it p : String) (a : Option String)
      (cf : List (String × FieldVal)) (s d : String),
      get_issue_type_id env pk it = none ∨ get_priority_id env p = none →
      create_issue env pk it s d p a cf = ([], none)) := by
  refine ⟨?_, ?_, ?_, ?_⟩
  · intro name ts
    induction ts with
    | nil => rfl
    | cons t rest ih =>
        by_cases h : strLower t.name = strLower name
        · simp [findIdByName, List.find?_cons, h]
        · simp [findIdByName, List.find?_cons, h, ih]
  · intro env name ps h
    simp [get_priority_id, h]
  · intro env pk name pts ats h1 h2
    simp [get_issue_type_id, h1, h2]
  · intro env pk it p a cf s d h
    exact create_issue_fail env pk it p a cf h s d

theorem mem_add_attachment_iff (env : Env) (k f n f0 n0 : String) :
    Act.attachPost k f n ∈ (add_attachment env k f0 n0).1 ↔
      (f = f0 ∧ n = n0 ∧ f0 ∈ env.existingPaths) := by
  unfold add_attachment
  by_cases hmem : f0 ∈ env.existingPaths
  · simp [hmem]
  · simp [hmem]

theorem mem_attachmentPhase_iff (env : Env) (args : Args) (k f n : String) :
    Act.attachPost k f n ∈ attachmentPhase env args k ↔
      ((args.outAttachmentFile = some f ∧ args.outAttachmentName = some n ∧
        f ≠ "" ∧ n ≠ "" ∧ f ∈ env.existingPaths) ∨
       (args.errorAttachmentFile = some f ∧ args.errorAttachmentName = some n ∧
        f ≠ "" ∧ n ≠ "" ∧ f ∈ env.existingPaths)) := by
  rcases hof : args.outAttachmentFile with - | f1 <;>
    rcases hon : args.outAttachmentName with - | n1 <;>
      rcases hef : args.errorAttachmentFile with - | f2 <;>
        rcases hen : args.errorAttachmentName with - | n2 <;>
          simp only [attachmentPhase, List.mem_append, optTruthy, hof, hon, hef, hen,
            Bool.false_and, Bool.and_false, Bool.true_and, Bool.and_true,
            Bool.false_eq_true, if_false, Option.getD_some, Option.some.injEq,
            List.not_mem_nil, false_or, or_false, false_and, and_false] <;>
          (try split_ifs) <;>
            (try simp_all [mem_add_attachment_iff]) <;>
              aesop

/-- C7: an attachment upload is attempted iff the attachment name and
file path were both supplied (truthy) and the path exists; a missing path
makes the attempt return failure without any HTTP call and never aborts
the run (the exit code stays 0). -/
theorem C7_attachment_iff_nonfatal (cfg : Config) (env : Env) (args : Args)
    (tid pid k : String)
    (hT : get_issue_type_id env args.projectKey (resolveIssueType cfg args) = some tid)
    (hTid : tid ≠ "")
    (hP : get_priority_id env (resolvePriority cfg args) = some pid)
    (hPid : pid ≠ "")
    (hC : env.createResult = some k) :
    (runMain cfg env args).2 = 0 ∧
    (∀ f n, Act.attachPost k f n ∈ (runMain cfg env args).1 ↔
      ((args.outAttachmentFile = some f ∧ args.outAttachmentName = some n ∧
        f ≠ "" ∧ n ≠ "" ∧ f ∈ env.existingPaths) ∨
       (args.errorAttachmentFile = some f ∧ args.errorAttachmentName = some n ∧
        f ≠ "" ∧ n ≠ "" ∧ f ∈ env.existingPaths))) ∧
    (∀ key f n, f ∉ env.existingPaths →
      add_attachment env key f n = ([], false)) := by
  have hmiss : ∀ key f n, f ∉ env.existingPaths →
      add_attachment env key f n = ([], false) := by
    intro key f n hf
    simp [add_attachment, hf]
  cases hs : search_existing_issue cfg env args.objectName args.projectKey with
  | some c =>
      simp only [runMain, hs, create_issue, hT, hP, hC, if_neg hTid, if_neg hPid]
      refine ⟨trivial, ?_, hmiss⟩
      intro f n
      simp [mem_attachmentPhase_iff]
  | none =>
      simp only [runMain, hs, create_issue, hT, hP, hC, if_neg hTid, if_neg hPid]
      refine ⟨trivial, ?_, hmiss⟩
      intro f n
      simp [mem_attachmentPhase_iff]

theorem runMain_none_search (cfg : Config) (env : Env) (args : Args)
    (hs : search_existing_issue cfg env args.objectName args.projectKey = none) :
    linksOf (runMain cfg env args).1 = [] ∧
    ∀ d ∈ createsOf (runMain cfg env args).1,
      d.summary = args.summary ∧ d.description = args.description := by
  have hlinks := linksOf_create_issue env args.projectKey (resolveIssueType cfg args)
    args.summary args.description (resolvePriority cfg args) args.assignee
    (buildCustomFields cfg args.objectName)
  have hcreates := createsOf_create_issue env args.projectKey (resolveIssueType cfg args)
    args.summary args.description (resolvePriority cfg args) args.assignee
    (buildCustomFields cfg args.objectName)
  simp only [runMain, hs]
  cases hcr : create_issue env args.projectKey (resolveIssueType cfg args)
      args.summary args.description (resolvePriority cfg args) args.assignee
      (buildCustomFields cfg args.objectName) with
  | mk ctrace res =>
      rw [hcr] at hlinks hcreates
      cases res with
      | some key =>
          constructor
          · simp [linksOf_append, linksOf_attachmentPhase, hlinks]
          · intro d hd
            simp only [createsOf_append, createsOf_attachmentPhase,
              List.append_nil] at hd
            have hprops := hcreates d hd
            exact ⟨hprops.2.1, hprops.2.2.1⟩
      | none =>
          constructor
          · simpa using hlinks
          · intro d hd
            have hprops := hcreates d (by simpa using hd)
            exact ⟨hprops.2.1, hprops.2.2.1⟩

/-- C9: when the dedup search fails with a transport error, or the
object-name field mapping is absent from configuration, the search
reports no existing issue and the invocation proceeds exactly as in the
zero-match outcome: the run equals the run against an empty search page,
a fresh ticket uses the alarm's own summary/description, and no link
call is attempted. -/
theorem C9_search_failure_acts_like_zero_match (cfg : Config) (env : Env)
    (args : Args)
    (h : env.searchResult = .error () ∨
         alookup cfg.custom_field_mappings "vtom_object_name" = none) :
    search_existing_issue cfg env args.objectName args.projectKey = none ∧
    runMain cfg env args = runMain cfg { env with searchResult := .ok [] } args ∧
    linksOf (runMain cfg env args).1 = [] ∧
    ∀ d ∈ createsOf (runMain cfg env args).1,
      d.summary = args.summary ∧ d.description = args.description := by
  have hs : search_existing_issue cfg env args.objectName args.projectKey = none := by
    rcases h with h | h
    · unfold search_existing_issue
      cases alookup cfg.custom_field_mappings "vtom_object_name" with
      | none => rfl
      | some fid => by_cases hf : fid = "" <;> simp [hf, h]
    · simp [search_existing_issue, h]
  have hs' : search_existing_issue cfg { env with searchResult := Except.ok [] }
      args.objectName args.projectKey = none := by
    unfold search_existing_issue
    cases alookup cfg.custom_field_mappings "vtom_object_name" with
    | none => rfl
    | some fid => by_cases hf : fid = "" <;> simp [hf, filterIssues]
  obtain ⟨hl, hc⟩ := runMain_none_search cfg env args hs
  refine ⟨hs, ?_, hl, hc⟩
  simp only [runMain, hs, hs']
  rfl

theorem createsOf_linkPost (a b : String) (rest : List Act) :
    createsOf (Act.linkPost a b :: rest) = createsOf rest := rfl

theorem foldl_jsm_preserves (jsm : List (String × FieldVal)) (fid : String)
    (v : FieldVal) :
    ∀ (l : List (String × String)) (acc : List (String × FieldVal)),
      (∀ p ∈ l, p.2 = fid →
        ∀ dv, alookup jsm p.1 = some dv → dv.truthy = false) →
      alookup acc fid = some v →
      alookup (l.foldl (fun acc p =>
        match alookup jsm p.1 with
        | some dv => if dv.truthy then dictInsert acc p.2 dv else acc
        | none => acc) acc) fid = some v := by
  intro l
  induction l with
  | nil => intro acc _ hacc; exact hacc
  | cons p rest ih =>
      intro acc hl hacc
      rw [List.foldl_cons]
      apply ih
      · intro q hq hq2 dv hdv
        exact hl q (List.mem_cons_of_mem p hq) hq2 dv hdv
      · cases hj : alookup jsm p.1 with
        | none => simpa [hj] using hacc
        | some dv =>
            by_cases ht : dv.truthy = true
            · by_cases hp2 : p.2 = fid
              · have hfalse := hl p (List.mem_cons_self p rest) hp2 dv hj
                rw [ht] at hfalse
                exact absurd hfalse (by simp)
              · simp only [hj, if_pos ht]
                rw [alookup_dictInsert_other _ _ _ _ hp2]
                exact hacc
            · simp only [hj, if_neg ht]
              exact hacc

theorem foldl_jobname_preserves (obj fid : String) :
    ∀ (l : List (String × String)) (acc : List (String × FieldVal)),
      alookup acc fid = some (FieldVal.str obj) →
      alookup (l.foldl (fun acc p =>
        if p.1 = "vtom_job_name" then dictInsert acc p.2 (FieldVal.str obj)
        else acc) acc) fid = some (FieldVal.str obj) := by
  intro l
  induction l with
  | nil => intro acc h; exact h
  | cons p rest ih =>
      intro acc h
      rw [List.foldl_cons]
      apply ih
      by_cases hp : p.1 = "vtom_job_name"
      · rw [if_pos hp]
        by_cases hp2 : p.2 = fid
        · rw [hp2, alookup_dictInsert_same]
        · rw [alookup_dictInsert_other _ _ _ _ hp2]
          exact h
      · rw [if_neg hp]
        exact h

theorem buildCustomFields_lookup (cfg : Config) (obj fid : String)
    (hm : alookup cfg.custom_field_mappings "vtom_object_name" = some fid)
    (hfid : fid ≠ "")
    (hjsm : ∀ p ∈ cfg.custom_field_mappings, p.2 = fid →
      ∀ dv, alookup cfg.jsm_default_values p.1 = some dv → dv.truthy = false) :
    alookup (buildCustomFields cfg obj) fid = some (FieldVal.str obj) := by
  have hne : cfg.custom_field_mappings.isEmpty = false := by
    cases hcm : cfg.custom_field_mappings with
    | nil => rw [hcm] at hm; exact absurd hm (by simp [alookup])
    | cons a l => rfl
  simp only [buildCustomFields, hne, Bool.false_eq_true, if_false, hm, hfid,
    ite_false]
  apply foldl_jobname_preserves
  by_cases hj : cfg.jsm_default_values.isEmpty = true
  · rw [if_pos hj]
    exact alookup_dictInsert_same _ _ _
  · rw [if_neg hj]
    exact foldl_jsm_preserves cfg.jsm_default_values fid (FieldVal.str obj)
      cfg.custom_field_mappings _ hjsm (alookup_dictInsert_same _ _ _)

theorem createsOf_runMain_customFields (cfg : Config) (env : Env) (args : Args) :
    ∀ d ∈ createsOf (runMain cfg env args).1,
      d.customFields = buildCustomFields cfg args.objectName := by
  cases hs : search_existing_issue cfg env args.objectName args.projectKey with
  | some c =>
      have hcreates := createsOf_create_issue env args.projectKey
        (resolveIssueType cfg args)
        (args.summary ++ " (Related to " ++ c.key ++ ")")
        ("This issue is related to existing issue " ++ c.key ++
          "\n\nVTOM Object: " ++ args.objectName ++ "\n\n" ++ args.description)
        (resolvePriority cfg args) args.assignee
        (buildCustomFields cfg args.objectName)
      simp only [runMain, hs]
      cases hcr : create_issue env args.projectKey (resolveIssueType cfg args)
          (args.summary ++ " (Related to " ++ c.key ++ ")")
          ("This issue is related to existing issue " ++ c.key ++
            "\n\nVTOM Object: " ++ args.objectName ++ "\n\n" ++ args.description)
          (resolvePriority cfg args) args.assignee
          (buildCustomFields cfg args.objectName) with
      | mk ctrace res =>
          rw [hcr] at hcreates
          cases res with
          | some key =>
              intro d hd
              simp only [createsOf_append, createsOf_attachmentPhase,
                createsOf_linkPost, createsOf, List.append_nil] at hd
              exact (hcreates d hd).2.2.2
          | none =>
              intro d hd
              exact (hcreates d (by simpa using hd)).2.2.2
  | none =>
      have hcreates := createsOf_create_issue env args.projectKey
        (resolveIssueType cfg args) args.summary args.description
        (resolvePriority cfg args) args.assignee
        (buildCustomFields cfg args.objectName)
      simp only [runMain, hs]
      cases hcr : create_issue env args.projectKey (resolveIssueType cfg args)
          args.summary args.description (resolvePriority cfg args) args.assignee
          (buildCustomFields cfg args.objectName) with
      | mk ctrace res =>
          rw [hcr] at hcreates
          cases res with
          | some key =>
              intro d hd
              simp only [createsOf_append, createsOf_attachmentPhase,
                List.append_nil] at hd
              exact (hcreates d hd).2.2.2
          | none =>
              intro d hd
              exact (hcreates d (by simpa using hd)).2.2.2

/-- C8 counterexample: with a configuration whose custom-field mapping
table is empty, a run still creates a ticket, but its payload carries no
custom field at all — in particular not the object name. So the claim
fails without a configuration precondition. -/
theorem C8_counterexample_missing_mapping :
    (createsOf (runMain cfg0 envEmptySearch argsT).1).map IssueData.customFields
      = [[]] ∧
    (runMain cfg0 envEmptySearch argsT).2 = 0 := by
  constructor <;> rfl

/-- C8 (amended): provided the configuration maps vtom_object_name to a
non-empty field id, and no truthy JSM default value is configured for a
mapping entry sharing that field id, every ticket created by the runtime
path (fresh or linked) carries the object-name custom field set to the
incoming alarm's object name. -/
theorem C8_amended_ticket_carries_object_field (cfg : Config) (env : Env)
    (args : Args) (fid : String)
    (hm : alookup cfg.custom_field_mappings "vtom_object_name" = some fid)
    (hfid : fid ≠ "")
    (hjsm : ∀ p ∈ cfg.custom_field_mappings, p.2 = fid →
      ∀ dv, alookup cfg.jsm_default_values p.1 = some dv → dv.truthy = false) :
    ∀ d ∈ createsOf (runMain cfg env args).1,
      alookup d.customFields fid = some (FieldVal.str args.objectName) := by
  intro d hd
  rw [createsOf_runMain_customFields cfg env args d hd]
  exact buildCustomFields_lookup cfg args.objectName fid hm hfid hjsm

/-! ## Witnesses -/

/-- C1 witness: at the template fixtures the closed ticket PROJ-40 is
skipped, the newest open match PROJ-42 is annotated and linked, and the
older open match PROJ-33 is ignored. -/
theorem C1_witness :
    (createsOf (runMain cfgT envT argsT).1).map IssueData.summary =
      [argsT.summary ++ " (Related to " ++ issueNewest.key ++ ")"] ∧
    (createsOf (runMain cfgT envT argsT).1).map IssueData.description =
      ["This issue is related to existing issue " ++ issueNewest.key ++
        "\n\nVTOM Object: " ++ argsT.objectName ++ "\n\n" ++ argsT.description] ∧
    linksOf (runMain cfgT envT argsT).1 = [("PROJ-77", issueNewest.key)] :=
  C1_dedup_links_newest_candidate cfgT envT argsT "customfield_10055"
    [issueDone, issueNewest, issueOlder] [issueOlder] issueNewest
    "10001" "2" "PROJ-77" rfl (by decide) rfl (by decide) rfl (by decide)
    rfl (by decide) rfl

/-- C2 witness: with an empty search page the fresh ticket uses the
alarm's own summary and description and no link call is made. -/
theorem C2_witness :
    (createsOf (runMain cfgT envEmptySearch argsT).1).map IssueData.summary =
      [argsT.summary] ∧
    (createsOf (runMain cfgT envEmptySearch argsT).1).map IssueData.description =
      [argsT.description] ∧
    linksOf (runMain cfgT envEmptySearch argsT).1 = [] :=
  C2_fresh_ticket_no_link cfgT envEmptySearch argsT "10001" "2" "PROJ-77"
    rfl rfl (by decide) rfl (by decide) rfl

/-- C3 witness: a ticket with status "Done" is never the dedup candidate. -/
theorem C3_witness :
    filterIssues "customfield_10055" "ETL_NIGHTLY" [issueDone] ≠ some issueDone ∧
    search_existing_issue cfgT { envT with searchResult := .ok [issueDone] }
      "ETL_NIGHTLY" "PROJ" ≠ some issueDone :=
  ⟨(C3_closed_never_selected issueDone (by decide)).1 "customfield_10055"
      "ETL_NIGHTLY" [issueDone],
   (C3_closed_never_selected issueDone (by decide)).2 cfgT
      { envT with searchResult := .ok [issueDone] } "ETL_NIGHTLY" "PROJ"⟩

/-- C4 witness: a candidate holding "Job_A" does not match an alarm for
"job_a". -/
theorem C4_witness :
    filterIssues "customfield_10055" "job_a" [issueJobA] ≠ some issueJobA :=
  C4_object_name_match_exact.2.2 "customfield_10055" [issueJobA] issueJobA rfl

/-- C5 witness: with an empty priority list the run aborts with exit
code 1 and no creation POST. -/
theorem C5_witness : runMain cfgT envNoPriority argsT = ([], 1) :=
  C5_unresolvable_precondition_aborts cfgT envNoPriority argsT (Or.inl rfl)

/-- C6 witness: the lookups at concrete lists, and a hard failure of the
create path on a missing priority. -/
theorem C6_witness :
    findIdByName "high" [{ name := "High", id := "2" }] =
      (([{ name := "High", id := "2" }] : List NamedId).find?
        (fun t => strLower t.name = strLower "high")).map NamedId.id ∧
    get_priority_id envT "high" = findIdByName "high" [{ name := "High", id := "2" }] ∧
    get_issue_type_id envT "PROJ" "incident" =
      (match findIdByName "incident" [{ name := "Incident", id := "10001" }] with
       | some tid => some tid
       | none => findIdByName "incident" []) ∧
    create_issue envNoPriority "PROJ" "Incident" "s" "d" "High" none [] = ([], none) :=
  ⟨C6_lookup_semantics.1 "high" [{ name := "High", id := "2" }],
   C6_lookup_semantics.2.1 envT "high" [{ name := "High", id := "2" }] rfl,
   C6_lookup_semantics.2.2.1 envT "PROJ" "incident"
     [{ name := "Incident", id := "10001" }] [] rfl rfl,
   C6_lookup_semantics.2.2.2 envNoPriority "PROJ" "Incident" "High" none [] "s" "d"
     (Or.inr rfl)⟩

/-- C7 witness: the supplied output log whose path exists is uploaded,
the supplied error log whose path is missing is not, its attempt returns
failure without an HTTP call, and the run exits 0. -/
theorem C7_witness :
    (runMain cfgT envT argsAttach).2 = 0 ∧
    Act.attachPost "PROJ-77" "/tmp/out.log" "out.log" ∈
      (runMain cfgT envT argsAttach).1 ∧
    Act.attachPost "PROJ-77" "/tmp/err.log" "err.log" ∉
      (runMain cfgT envT argsAttach).1 ∧
    add_attachment envT "PROJ-77" "/tmp/err.log" "err.log" = ([], false) := by
  have h := C7_attachment_iff_nonfatal cfgT envT argsAttach "10001" "2" "PROJ-77"
    rfl (by decide) rfl (by decide) rfl
  refine ⟨h.1, ?_, ?_,
    h.2.2 "PROJ-77" "/tmp/err.log" "err.log" (by decide)⟩
  · exact (h.2.1 "/tmp/out.log" "out.log").mpr
      (Or.inl ⟨rfl, rfl, by decide, by decide, by decide⟩)
  · intro hmem
    rcases (h.2.1 "/tmp/err.log" "err.log").mp hmem with
      ⟨h1, -, -, -, -⟩ | ⟨-, -, -, -, hp⟩
    · exact absurd h1 (by decide)
    · exact absurd hp (by decide)

/-- C8 witness (for the amended claim): the fresh-ticket payload of the
template configuration carries the object-name custom field. -/
theorem C8_witness :
    alookup payloadFresh.customFields "customfield_10055" =
      some (FieldVal.str "ETL_NIGHTLY") := by
  have hjsm : ∀ p ∈ cfgT.custom_field_mappings, p.2 = "customfield_10055" →
      ∀ dv, alookup cfgT.jsm_default_values p.1 = some dv → dv.truthy = false := by
    intro p hp hp2 dv hdv
    fin_cases hp
    · have hnone : alookup cfgT.jsm_default_values
          (("vtom_object_name", "customfield_10055") : String × String).1 = none := rfl
      rw [hnone] at hdv
      exact Option.noConfusion hdv
    · exact absurd hp2 (by decide)
  exact C8_amended_ticket_carries_object_field cfgT envEmptySearch argsT
    "customfield_10055" rfl (by decide) hjsm payloadFresh (by decide)

/-- C9 witness: a transport failure of the search behaves like an empty
search page. -/
theorem C9_witness :
    search_existing_issue cfgT envErrSearch argsT.objectName argsT.projectKey = none ∧
    runMain cfgT envErrSearch argsT =
      runMain cfgT { envErrSearch with searchResult := .ok [] } argsT ∧
    linksOf (runMain cfgT envErrSearch argsT).1 = [] :=
  ⟨(C9_search_failure_acts_like_zero_match cfgT envErrSearch argsT (Or.inl rfl)).1,
   (C9_search_failure_acts_like_zero_match cfgT envErrSearch argsT (Or.inl rfl)).2.1,
   (C9_search_failure_acts_like_zero_match cfgT envErrSearch argsT (Or.inl rfl)).2.2.1⟩

/-- C10 witness: a candidate whose object-name field is JSON null is not
selected even for an empty alarm object name. -/
theorem C10_witness :
    filterIssues "customfield_10055" "" [issueNullField] ≠ some issueNullField :=
  C10_falsy_field_never_selected issueNullField "customfield_10055" (Or.inl rfl)
    "" [issueNullField]
